import Mathlib

/-!
Shallow embedding of the py-trello client library (src/trello/__init__.py).

Python values appearing in JSON positions are modelled by the inductive
type `Json`; Python exceptions are modelled by `PyErr` together with the
`Except` monad; the single HTTP round trip of each method is modelled by
passing the collaborating HTTP response in as an argument.  The JSON
codec (json.dumps / json.loads) and urllib.urlencode are stdlib
collaborators and are modelled concretely below; json.loads is the
identity on the already-decoded `content` of a response, matching the
spec assumption that the codec is correct.
-/

/-- A decoded JSON value (also used for arbitrary Python values that the
repository stores in entity attributes). -/
inductive Json where
  | null
  | bool (b : Bool)
  | num (n : Int)
  | str (s : String)
  | arr (xs : List Json)
  | obj (fields : List (String × Json))

/-- Escape a character for a JSON string literal, as json.dumps does. -/
def jsonEscapeChar (c : Char) : String :=
  if c = Char.ofNat 34 then "\\" ++ String.singleton (Char.ofNat 34)
  else if c = Char.ofNat 92 then "\\\\"
  else String.singleton c

/-- Quote a string as a JSON string literal. -/
def jsonQuote (s : String) : String :=
  String.singleton (Char.ofNat 34)
    ++ String.join (s.data.map jsonEscapeChar)
    ++ String.singleton (Char.ofNat 34)

mutual
/-- Serialize a `Json` value the way json.dumps serializes the
corresponding Python value (Python 2 default separators). -/
def Json.dumps : Json → String
  | .null => "null"
  | .bool true => "true"
  | .bool false => "false"
  | .num n => toString n
  | .str s => jsonQuote s
  | .arr xs => "[" ++ Json.dumpsList xs ++ "]"
  | .obj fs => "\x7b" ++ Json.dumpsFields fs ++ "\x7d"

/-- Comma-joined serialization of the elements of a JSON array. -/
def Json.dumpsList : List Json → String
  | [] => ""
  | [x] => Json.dumps x
  | x :: y :: tl => Json.dumps x ++ ", " ++ Json.dumpsList (y :: tl)

/-- Comma-joined serialization of the fields of a JSON object. -/
def Json.dumpsFields : List (String × Json) → String
  | [] => ""
  | [(k, v)] => jsonQuote k ++ ": " ++ Json.dumps v
  | (k, v) :: f :: tl =>
      jsonQuote k ++ ": " ++ Json.dumps v ++ ", " ++ Json.dumpsFields (f :: tl)
end

/-- Python exceptions that the embedded code can raise. -/
inductive PyErr where
  | typeError (msg : String)
  | attributeError (msg : String)
  | keyError (key : String)
  | indexError
  | valueError (msg : String)
  | resourceUnavailable (msg : String) (status : Nat)
  | unauthorized (msg : String) (status : Nat)
deriving DecidableEq

mutual
/-- Python repr of a JSON-shaped value (only reached through `pyStr` on
containers; the repository never puts containers in query dicts). -/
def pyRepr : Json → String
  | .null => "None"
  | .bool true => "True"
  | .bool false => "False"
  | .num n => toString n
  | .str s => "\x27" ++ s ++ "\x27"
  | .arr xs => "[" ++ pyReprList xs ++ "]"
  | .obj fs => "\x7b" ++ pyReprFields fs ++ "\x7d"

/-- Comma-joined repr of list elements. -/
def pyReprList : List Json → String
  | [] => ""
  | [x] => pyRepr x
  | x :: y :: tl => pyRepr x ++ ", " ++ pyReprList (y :: tl)

/-- Comma-joined repr of dict items. -/
def pyReprFields : List (String × Json) → String
  | [] => ""
  | [(k, v)] => "\x27" ++ k ++ "\x27: " ++ pyRepr v
  | (k, v) :: f :: tl =>
      "\x27" ++ k ++ "\x27: " ++ pyRepr v ++ ", " ++ pyReprFields (f :: tl)
end

/-- Python str() of a value, as applied by urllib.urlencode to each key
and value of the query dict. -/
def pyStr : Json → String
  | .null => "None"
  | .bool true => "True"
  | .bool false => "False"
  | .num n => toString n
  | .str s => s
  | .arr xs => pyRepr (.arr xs)
  | .obj fs => pyRepr (.obj fs)

/-- Characters urllib leaves unescaped (Python 2 always_safe set). -/
def urlSafeChar (c : Char) : Bool :=
  c.isAlpha || c.isDigit || c = Char.ofNat 95 || c = Char.ofNat 46 || c = Char.ofNat 45

/-- Uppercase hex digit. -/
def hexDigit (n : Nat) : Char :=
  if n < 10 then Char.ofNat (48 + n) else Char.ofNat (55 + n)

/-- Percent-encode one character (urllib.quote_plus on a single char). -/
def quoteChar (c : Char) : String :=
  if urlSafeChar c then String.singleton c
  else if c = Char.ofNat 32 then "+"
  else "%" ++ String.singleton (hexDigit (c.toNat / 16 % 16))
        ++ String.singleton (hexDigit (c.toNat % 16))

/-- urllib.quote_plus with the empty safe set, as urlencode uses it. -/
def quote_plus (s : String) : String :=
  String.join (s.data.map quoteChar)

/-- urllib.urlencode over the items of a query dict (modelled as an
association list in iteration order). -/
def urlencode (query : List (String × Json)) : String :=
  String.intercalate "&"
    (query.map (fun p => quote_plus p.1 ++ "=" ++ quote_plus (pyStr p.2)))

/-- Python subscript j[k] on a JSON object: KeyError when the key is
missing, TypeError when the value is not a dict. -/
def Json.item : Json → String → Except PyErr Json
  | .obj fields, k =>
      match fields.lookup k with
      | some v => .ok v
      | none => .error (.keyError k)
  | _, k => .error (.typeError ("unsubscriptable object at key " ++ k))

/-- Python dict.get(k, default).  Total here: in every call site of the
repository a subscript access on the same object precedes the .get call,
so a non-dict argument has already raised before .get is reached. -/
def Json.get (j : Json) (k : String) (default : Json) : Json :=
  match j with
  | .obj fields => (fields.lookup k).getD default
  | _ => default

/-- Python subscript j[i] with an integer index on a JSON array. -/
def Json.index : Json → Nat → Except PyErr Json
  | .arr xs, i =>
      match xs.get? i with
      | some v => .ok v
      | none => .error .indexError
  | _, _ => .error (.typeError "object is not indexable")

/-- Python value.encode(utf-8): succeeds exactly on strings, yielding the
same text; any other value lacks the method (AttributeError). -/
def encode_utf8 : Json → Except PyErr String
  | .str s => .ok s
  | _ => .error (.attributeError "encode")

/-- Identifiers taken from a response are stored as strings.  Python
stores the raw value and would only fail later, at URL concatenation;
the failure is modelled eagerly here, with the same TypeError. -/
def asId : Json → Except PyErr String
  | .str s => .ok s
  | _ => .error (.typeError "cannot concatenate str and non-str objects")

/-- Python truthiness of a string: only the empty string is falsy. -/
def pyTruthy (s : String) : Bool := s ≠ ""

/-- Python truthiness of an optional string (None is falsy). -/
def pyTruthyOpt : Option String → Bool
  | none => false
  | some s => s ≠ ""

/-- The oauth_consumer / oauth_token attribute pair: oauth.Consumer(key
= api_key, secret = api_secret) and oauth.Token(key = token, secret =
token_secret). -/
structure OauthPair where
  consumer_key : String
  consumer_secret : String
  token_key : String
  token_secret : String
deriving DecidableEq

/-- The underlying HTTP transport object: httplib2.Http() in the simple
configuration, oauth.Client(consumer, token) in the OAuth one. -/
inductive HttpClientKind where
  | http
  | oauthClient
deriving DecidableEq

/-- State of a TrelloClient instance.  `oauth = none` models the absence
of the oauth_token / oauth_consumer attributes (hasattr false); `client
= none` models the client attribute never having been assigned. -/
structure TrelloClient where
  oauth : Option OauthPair
  client : Option HttpClientKind
  api_key : String
  auth_token : String
deriving DecidableEq

/-- TrelloClient.__init__(api_key, token, api_secret = None,
token_secret = None).  The two optional parameters default to None
(modelled as `none`); truthiness of the four credentials selects the
branch; when neither branch is taken the client attribute is simply
never assigned, and no error is raised. -/
def TrelloClient.init (api_key : String) (token : String)
    (api_secret : Option String) (token_secret : Option String) : TrelloClient :=
  if pyTruthy api_key && pyTruthyOpt api_secret && pyTruthy token
      && pyTruthyOpt token_secret then
    { oauth := some { consumer_key := api_key,
                      consumer_secret := api_secret.getD "",
                      token_key := token,
                      token_secret := token_secret.getD "" },
      client := some .oauthClient,
      api_key := api_key, auth_token := token }
  else if pyTruthy api_key && pyTruthy token then
    { oauth := none, client := some .http,
      api_key := api_key, auth_token := token }
  else
    { oauth := none, client := none,
      api_key := api_key, auth_token := token }

/-- TrelloClient.build_url(path, query).  With the oauth_token attribute
present the source appends key=self.oauth_token.key (which holds the
auth token) and token=self.oauth_consumer.key (which holds the API
key); without it, key=self.api_key and token=self.auth_token. -/
def TrelloClient.build_url (c : TrelloClient) (path : String)
    (query : List (String × Json)) : String :=
  let url := "https://api.trello.com/1"
  let url := if path.take 1 ≠ "/" then url ++ "/" else url
  let url := url ++ path
  let url :=
    match c.oauth with
    | some o => url ++ "?" ++ "key=" ++ o.token_key ++ "&token=" ++ o.consumer_key
    | none => url ++ "?" ++ "key=" ++ c.api_key ++ "&token=" ++ c.auth_token
  if query.length > 0 then url ++ "&" ++ urlencode query else url

/-- The tuple handed to self.client.request. -/
structure HttpRequest where
  url : String
  method : String
  headers : List (String × String)
  body : String
deriving DecidableEq

/-- The response of the collaborating HTTP transport: status code and
already-decoded JSON body (the JSON codec is assumed correct, so
json.loads is the identity on `content`). -/
structure HttpResponse where
  status : Nat
  content : Json

/-- Python dict item assignment d[k] = v on a string dict. -/
def setItem (d : List (String × String)) (k v : String) : List (String × String) :=
  if d.any (fun p => p.1 = k) then
    d.map (fun p => if p.1 = k then (k, v) else p)
  else d ++ [(k, v)]

/-- A positional argument of a trello exception constructor. -/
inductive ErrArg where
  | s (v : String)
  | resp (r : HttpResponse)

/-- Models `raise cls(*args)` for cls = Unauthorized (isUnauth = true) or
ResourceUnavailable.  Both classes share
ResourceUnavailable.__init__(self, msg, http_response), which stores msg
and http_response.status; a call with any other number of arguments
raises TypeError before an exception instance exists. -/
def raiseTrelloError (isUnauth : Bool) (args : List ErrArg) : PyErr :=
  match args with
  | [.s msg, .resp r] =>
      if isUnauth then .unauthorized msg r.status
      else .resourceUnavailable msg r.status
  | _ => .typeError "__init__ takes exactly 3 arguments (2 given)"

/-- isinstance(e, ResourceUnavailable): true for ResourceUnavailable and
for its subclass Unauthorized. -/
def PyErr.isinstance_ResourceUnavailable : PyErr → Bool
  | .resourceUnavailable _ _ => true
  | .unauthorized _ _ => true
  | _ => false

/-- isinstance(e, Unauthorized). -/
def PyErr.isinstance_Unauthorized : PyErr → Bool
  | .unauthorized _ _ => true
  | _ => false

/-- The request tuple that TrelloClient.fetch_json hands to
self.client.request: the header dict after the two assignments, the
built URL, the method, and json.dumps(post_args) as the body. -/
def TrelloClient.fetch_json_request (c : TrelloClient) (uri_path : String)
    (http_method : String) (headers : List (String × String))
    (query_params : List (String × Json)) (post_args : Json) : HttpRequest :=
  let headers :=
    if http_method = "POST" ∨ http_method = "PUT" ∨ http_method = "DELETE" then
      setItem headers "Content-type" "application/json"
    else headers
  let headers := setItem headers "Accept" "application/json"
  { url := c.build_url uri_path query_params,
    method := http_method, headers := headers,
    body := Json.dumps post_args }

/-- TrelloClient.fetch_json.  The source defaults are http_method =
GET, headers = empty, query_params = empty, post_args = empty dict;
call sites below always pass them explicitly.  On status 401 the source
executes `raise Unauthorized(url)`: the constructor call itself raises
TypeError (one argument where the inherited two-argument
ResourceUnavailable.__init__ is needed).  On any other non-200 status it
executes `raise ResourceUnavailable(url, response)`.  On 200 it returns
the decoded body. -/
def TrelloClient.fetch_json (c : TrelloClient) (uri_path : String)
    (http_method : String) (headers : List (String × String))
    (query_params : List (String × Json)) (post_args : Json)
    (resp : HttpResponse) : Except PyErr Json :=
  let req := c.fetch_json_request uri_path http_method headers query_params post_args
  match c.client with
  | none => .error (.attributeError "TrelloClient instance has no attribute client")
  | some _ =>
      if resp.status = 401 then
        .error (raiseTrelloError true [.s req.url])
      else if resp.status ≠ 200 then
        .error (raiseTrelloError false [.s req.url, .resp resp])
      else
        .ok resp.content

/-- State of a Board instance.  Attributes other than client, id and
name exist only after hydration, modelled by Option. -/
structure Board where
  client : TrelloClient
  id : String
  name : String
  description : Option Json
  closed : Option Json
  url : Option Json

/-- Board.__init__(client, board_id, name = empty string). -/
def Board.init (client : TrelloClient) (board_id : String) (name : String) : Board :=
  { client := client, id := board_id, name := name,
    description := none, closed := none, url := none }

/-- State of a List instance (renamed TrelloList: List is taken by the
Lean core library). -/
structure TrelloList where
  board : Board
  client : TrelloClient
  id : String
  name : String
  closed : Option Json
  actions : Option Json

/-- List.__init__(board, list_id, name = empty string); the client
reference is taken from the parent board. -/
def TrelloList.init (board : Board) (list_id : String) (name : String) : TrelloList :=
  { board := board, client := board.client, id := list_id, name := name,
    closed := none, actions := none }

/-- State of a Card instance.  The name attribute holds a raw Python
value: the constructor default is the empty string but
List.add_card assigns the unencoded response value to it. -/
structure Card where
  trello_list : TrelloList
  client : TrelloClient
  id : String
  name : Json
  description : Option Json
  closed : Option Json
  url : Option Json
  member_ids : Option Json
  short_id : Option Json
  list_id : Option Json
  board_id : Option Json
  labels : Option Json
  badges : Option Json
  actions : Option Json

/-- Card.__init__(trello_list, card_id, name = empty string). -/
def Card.init (trello_list : TrelloList) (card_id : String) (name : Json) : Card :=
  { trello_list := trello_list, client := trello_list.client,
    id := card_id, name := name,
    description := none, closed := none, url := none, member_ids := none,
    short_id := none, list_id := none, board_id := none, labels := none,
    badges := none, actions := none }

/-- State of a Member instance. -/
structure Member where
  client : TrelloClient
  id : String
  status : Option String
  bio : Option Json
  url : Option Json
  username : Option String
  full_name : Option String
  initials : Option String

/-- Member.__init__(client, member_id). -/
def Member.init (client : TrelloClient) (member_id : String) : Member :=
  { client := client, id := member_id, status := none, bio := none,
    url := none, username := none, full_name := none, initials := none }

/-- TrelloClient._board_from_json(json): Board(self, json subscript id,
name = json subscript name, utf-8 encoded), then description from
json.get(desc, empty string) encoded, closed and url raw. -/
def TrelloClient.board_from_json (c : TrelloClient) (json : Json) : Except PyErr Board :=
  match json.item "id" with
  | .error e => .error e
  | .ok idv =>
  match asId idv with
  | .error e => .error e
  | .ok i =>
  match json.item "name" with
  | .error e => .error e
  | .ok nv =>
  match encode_utf8 nv with
  | .error e => .error e
  | .ok nm =>
  match encode_utf8 (json.get "desc" (.str "")) with
  | .error e => .error e
  | .ok ds =>
  match json.item "closed" with
  | .error e => .error e
  | .ok cl =>
  match json.item "url" with
  | .error e => .error e
  | .ok u =>
    .ok { client := c, id := i, name := nm, description := some (.str ds),
          closed := some cl, url := some u }

/-- Board.fetch(): GET /boards/id, then assign name (encoded),
description (json_obj.get desc, default empty), closed and url. -/
def Board.fetch (board : Board) (resp : HttpResponse) : Except PyErr Board :=
  match board.client.fetch_json ("/boards/" ++ board.id) "GET" [] [] (.obj []) resp with
  | .error e => .error e
  | .ok json_obj =>
  match json_obj.item "name" with
  | .error e => .error e
  | .ok nv =>
  match encode_utf8 nv with
  | .error e => .error e
  | .ok nm =>
  match json_obj.item "closed" with
  | .error e => .error e
  | .ok cl =>
  match json_obj.item "url" with
  | .error e => .error e
  | .ok u =>
    .ok { board with name := nm,
                     description := some (json_obj.get "desc" (.str "")),
                     closed := some cl, url := some u }

/-- Board.add_list(name): POST /lists with post_args name and idBoard,
then List(self, response id, name = response name encoded) with closed
from the response. -/
def Board.add_list (board : Board) (name : Json) (resp : HttpResponse) :
    Except PyErr TrelloList :=
  match board.client.fetch_json "/lists" "POST" [] []
      (.obj [("name", name), ("idBoard", .str board.id)]) resp with
  | .error e => .error e
  | .ok obj =>
  match obj.item "id" with
  | .error e => .error e
  | .ok idv =>
  match asId idv with
  | .error e => .error e
  | .ok i =>
  match obj.item "name" with
  | .error e => .error e
  | .ok nv =>
  match encode_utf8 nv with
  | .error e => .error e
  | .ok nm =>
  match obj.item "closed" with
  | .error e => .error e
  | .ok cl =>
    .ok { board := board, client := board.client, id := i, name := nm,
          closed := some cl, actions := none }

/-- List.fetch(): GET /lists/id, then assign name (encoded) and
closed. -/
def TrelloList.fetch (lst : TrelloList) (resp : HttpResponse) : Except PyErr TrelloList :=
  match lst.client.fetch_json ("/lists/" ++ lst.id) "GET" [] [] (.obj []) resp with
  | .error e => .error e
  | .ok json_obj =>
  match json_obj.item "name" with
  | .error e => .error e
  | .ok nv =>
  match encode_utf8 nv with
  | .error e => .error e
  | .ok nm =>
  match json_obj.item "closed" with
  | .error e => .error e
  | .ok cl =>
    .ok { lst with name := nm, closed := some cl }

/-- List.add_card(name, desc = None): POST /lists/id/cards with
post_args name, idList, desc, then Card(self, response id) and
assignment of name (raw), description (get desc, default empty), closed,
url and member_ids from the response. -/
def TrelloList.add_card (lst : TrelloList) (name : Json) (desc : Json)
    (resp : HttpResponse) : Except PyErr Card :=
  match lst.client.fetch_json ("/lists/" ++ lst.id ++ "/cards") "POST" [] []
      (.obj [("name", name), ("idList", .str lst.id), ("desc", desc)]) resp with
  | .error e => .error e
  | .ok json_obj =>
  match json_obj.item "id" with
  | .error e => .error e
  | .ok idv =>
  match asId idv with
  | .error e => .error e
  | .ok i =>
  match json_obj.item "name" with
  | .error e => .error e
  | .ok nv =>
  match json_obj.item "closed" with
  | .error e => .error e
  | .ok cl =>
  match json_obj.item "url" with
  | .error e => .error e
  | .ok u =>
  match json_obj.item "idMembers" with
  | .error e => .error e
  | .ok mids =>
    .ok { Card.init lst i (.str "") with
          name := nv,
          description := some (json_obj.get "desc" (.str "")),
          closed := some cl, url := some u, member_ids := some mids }

/-- Card.fetch(): GET /cards/id with query badges = False, then assign
name (encoded), description (get desc), closed, url, member_ids,
short_id, list_id, board_id, labels and badges. -/
def Card.fetch (card : Card) (resp : HttpResponse) : Except PyErr Card :=
  match card.client.fetch_json ("/cards/" ++ card.id) "GET" []
      [("badges", .bool false)] (.obj []) resp with
  | .error e => .error e
  | .ok json_obj =>
  match json_obj.item "name" with
  | .error e => .error e
  | .ok nv =>
  match encode_utf8 nv with
  | .error e => .error e
  | .ok nm =>
  match json_obj.item "closed" with
  | .error e => .error e
  | .ok cl =>
  match json_obj.item "url" with
  | .error e => .error e
  | .ok u =>
  match json_obj.item "idMembers" with
  | .error e => .error e
  | .ok mids =>
  match json_obj.item "idShort" with
  | .error e => .error e
  | .ok sid =>
  match json_obj.item "idList" with
  | .error e => .error e
  | .ok lid =>
  match json_obj.item "idBoard" with
  | .error e => .error e
  | .ok bid =>
  match json_obj.item "labels" with
  | .error e => .error e
  | .ok lbl =>
  match json_obj.item "badges" with
  | .error e => .error e
  | .ok bdg =>
    .ok { card with name := .str nm,
                    description := some (json_obj.get "desc" (.str "")),
                    closed := some cl, url := some u, member_ids := some mids,
                    short_id := some sid, list_id := some lid,
                    board_id := some bid, labels := some lbl,
                    badges := some bdg }

/-- Card.fetch_actions(action_filter = createCard): GET
/cards/id/actions with query filter = action_filter, storing the raw
response list on self.actions. -/
def Card.fetch_actions (card : Card) (action_filter : String)
    (resp : HttpResponse) : Except PyErr Card :=
  match card.client.fetch_json ("/cards/" ++ card.id ++ "/actions") "GET" []
      [("filter", .str action_filter)] (.obj []) resp with
  | .error e => .error e
  | .ok json_obj => .ok { card with actions := some json_obj }

/-- A datetime.datetime value as produced by strptime. -/
structure DateTime where
  year : Nat
  month : Nat
  day : Nat
  hour : Nat
  minute : Nat
  second : Nat
deriving DecidableEq

/-- Gregorian leap year. -/
def isLeapYear (y : Nat) : Bool := (y % 4 = 0 && y % 100 ≠ 0) || y % 400 = 0

/-- Days of month m in year y. -/
def daysInMonth (y m : Nat) : Nat :=
  if m = 2 then (if isLeapYear y then 29 else 28)
  else if m = 4 ∨ m = 6 ∨ m = 9 ∨ m = 11 then 30
  else 31

/-- Split a character list at every occurrence of the separator. -/
def splitOnChar (c : Char) : List Char → List (List Char)
  | [] => [[]]
  | x :: xs =>
    let r := splitOnChar c xs
    if x = c then [] :: r
    else
      match r with
      | [] => [[x]]
      | h :: t => (x :: h) :: t

/-- A strptime numeric field: one to maxLen digits. -/
def strpField (s : List Char) (maxLen : Nat) : Bool :=
  1 ≤ s.length && s.length ≤ maxLen && s.all Char.isDigit

/-- Numeric value of a digit string. -/
def digitsToNat (s : List Char) : Nat :=
  s.foldl (fun a c => a * 10 + (c.toNat - 48)) 0

/-- datetime.strptime(s, format string Y-m-dTH:M:S): field-wise digit
parsing plus the calendar validation that datetime performs; any
mismatch raises ValueError. -/
def strptime_YmdHMS (s : String) : Except PyErr DateTime :=
  match splitOnChar (Char.ofNat 84) s.data with
  | [d, t] =>
    match splitOnChar (Char.ofNat 45) d with
    | [ys, ms, ds] =>
      match splitOnChar (Char.ofNat 58) t with
      | [hs, mins, ss] =>
        if strpField ys 4 && strpField ms 2 && strpField ds 2
            && strpField hs 2 && strpField mins 2 && strpField ss 2 then
          let y := digitsToNat ys
          let mo := digitsToNat ms
          let da := digitsToNat ds
          let h := digitsToNat hs
          let mi := digitsToNat mins
          let sec := digitsToNat ss
          if 1 ≤ y ∧ 1 ≤ mo ∧ mo ≤ 12 ∧ 1 ≤ da ∧ da ≤ daysInMonth y mo
              ∧ h ≤ 23 ∧ mi ≤ 59 ∧ sec ≤ 59 then
            .ok { year := y, month := mo, day := da,
                  hour := h, minute := mi, second := sec }
          else .error (.valueError "time data does not match format")
        else .error (.valueError "time data does not match format")
      | _ => .error (.valueError "time data does not match format")
    | _ => .error (.valueError "time data does not match format")
  | _ => .error (.valueError "time data does not match format")

/-- Card.create_date property: self.fetch_actions() with the default
createCard filter, then self.actions subscript 0, subscript date,
slice dropping the last five characters, and strptime. -/
def Card.create_date (card : Card) (resp : HttpResponse) : Except PyErr DateTime :=
  match card.fetch_actions "createCard" resp with
  | .error e => .error e
  | .ok card2 =>
  match card2.actions with
  | none => .error (.attributeError "actions")
  | some acts =>
  match acts.index 0 with
  | .error e => .error e
  | .ok a0 =>
  match a0.item "date" with
  | .error e => .error e
  | .ok dv =>
  match dv with
  | .str ds => strptime_YmdHMS (ds.dropRight 5)
  | _ => .error (.typeError "strptime argument must be a string")

/-- Card._set_remote_attribute(attribute, value): PUT
/cards/id/attribute with post_args value. -/
def Card.set_remote_attribute (card : Card) (attr_name : String) (value : Json)
    (resp : HttpResponse) : Except PyErr Json :=
  card.client.fetch_json ("/cards/" ++ card.id ++ "/" ++ attr_name) "PUT" [] []
    (.obj [("value", value)]) resp

/-- Card.set_description(description): the remote PUT runs first; only
when it did not raise is the local attribute assigned.  On a raise the
card is returned unchanged next to the propagating error. -/
def Card.set_description (card : Card) (description : Json)
    (resp : HttpResponse) : Card × Option PyErr :=
  match card.set_remote_attribute "desc" description resp with
  | .error e => (card, some e)
  | .ok _ => ({ card with description := some description }, none)

/-- Card.set_closed(closed): same shape as set_description, on the
closed attribute. -/
def Card.set_closed (card : Card) (closed : Json)
    (resp : HttpResponse) : Card × Option PyErr :=
  match card.set_remote_attribute "closed" closed resp with
  | .error e => (card, some e)
  | .ok _ => ({ card with closed := some closed }, none)

/-- Member.fetch(): GET /members/id with query badges = False, then
assign status (encoded), id (json_obj.get id, default empty string),
bio, url, username, fullName and initials, and return self. -/
def Member.fetch (m : Member) (resp : HttpResponse) : Except PyErr Member :=
  match m.client.fetch_json ("/members/" ++ m.id) "GET" []
      [("badges", .bool false)] (.obj []) resp with
  | .error e => .error e
  | .ok json_obj =>
  match json_obj.item "status" with
  | .error e => .error e
  | .ok sv =>
  match encode_utf8 sv with
  | .error e => .error e
  | .ok st =>
  match asId (json_obj.get "id" (.str "")) with
  | .error e => .error e
  | .ok newId =>
  match json_obj.item "username" with
  | .error e => .error e
  | .ok uv =>
  match encode_utf8 uv with
  | .error e => .error e
  | .ok un =>
  match json_obj.item "fullName" with
  | .error e => .error e
  | .ok fv =>
  match encode_utf8 fv with
  | .error e => .error e
  | .ok fn =>
  match json_obj.item "initials" with
  | .error e => .error e
  | .ok iv =>
  match encode_utf8 iv with
  | .error e => .error e
  | .ok ini =>
    .ok { m with status := some st, id := newId,
                 bio := some (json_obj.get "bio" (.str "")),
                 url := some (json_obj.get "url" (.str "")),
                 username := some un, full_name := some fn,
                 initials := some ini }

/-- A client in the simple-auth configuration, for concrete instances. -/
def sampleClient : TrelloClient := TrelloClient.init "k" "t" none none

/-- A freshly constructed board. -/
def sampleBoard : Board := Board.init sampleClient "b1" ""

/-- A freshly constructed list. -/
def sampleList : TrelloList := TrelloList.init sampleBoard "l1" ""

/-- A freshly constructed card. -/
def sampleCard : Card := Card.init sampleList "c1" (.str "")

/-- The URL builder exactly as the claim words it: key is the API key
and token is the auth token in every configuration.  Used only to
compare the claim against the embedded source. -/
def build_url_claimed (c : TrelloClient) (path : String)
    (query : List (String × Json)) : String :=
  "https://api.trello.com/1" ++ (if path.take 1 ≠ "/" then "/" else "") ++ path
    ++ "?key=" ++ c.api_key ++ "&token=" ++ c.auth_token
    ++ (if query.length > 0 then "&" ++ urlencode query else "")

/-- Inversion for asId: success means the value was that string. -/
theorem asId_ok {j : Json} {s : String} (h : asId j = .ok s) : j = .str s := by
  cases j <;> simp_all [asId]

/-- When a key is present, dict.get returns its value. -/
theorem Json.get_of_item {j : Json} {k : String} {v d : Json}
    (h : j.item k = .ok v) : j.get k d = v := by
  cases j <;> simp [Json.item] at h
  case obj fields =>
    cases hl : fields.lookup k with
    | none => rw [hl] at h; simp at h
    | some w => rw [hl] at h; simp at h; simp [Json.get, hl, h]

/-- Claim C1: fetch_json returns the decoded body exactly on status 200
and raises ResourceUnavailable with the URL and status on other non-200
statuses, but on status 401 the source line raise Unauthorized(url)
itself fails: the inherited two-argument constructor is called with one
argument, so the call raises TypeError instead of an Unauthorized error
carrying the URL.  Evaluated at a concrete simple-auth client. -/
theorem c1_fetch_json_status_behaviour :
    sampleClient.fetch_json "/boards/b1" "GET" [] [] (.obj []) ⟨200, .str "body"⟩
      = .ok (.str "body")
    ∧ sampleClient.fetch_json "/boards/b1" "GET" [] [] (.obj []) ⟨404, .null⟩
      = .error (.resourceUnavailable "https://api.trello.com/1/boards/b1?key=k&token=t" 404)
    ∧ sampleClient.fetch_json "/boards/b1" "GET" [] [] (.obj []) ⟨401, .null⟩
      = .error (.typeError "__init__ takes exactly 3 arguments (2 given)") :=
  ⟨rfl, rfl, rfl⟩

/-- Claim C2, counterexample: in the OAuth configuration build_url does
not produce key=API key, token=auth token as claimed; at a concrete
OAuth client the two values come out swapped. -/
theorem c2_build_url_oauth_counterexample :
    (TrelloClient.init "KEY" "TOK" (some "SEC") (some "TSEC")).build_url "/b" []
      ≠ build_url_claimed (TrelloClient.init "KEY" "TOK" (some "SEC") (some "TSEC")) "/b" []
    ∧ (TrelloClient.init "KEY" "TOK" (some "SEC") (some "TSEC")).build_url "/b" []
      = "https://api.trello.com/1/b?key=TOK&token=KEY" :=
  ⟨by decide, rfl⟩

/-- Constructing without secrets never takes the OAuth branch and stores
the credentials unchanged, whichever of the two remaining branches
runs. -/
theorem init_simple_fields (k t : String) :
    (TrelloClient.init k t none none).oauth = none
    ∧ (TrelloClient.init k t none none).api_key = k
    ∧ (TrelloClient.init k t none none).auth_token = t := by
  unfold TrelloClient.init
  simp only [pyTruthyOpt, Bool.and_false, Bool.false_and, if_false, Bool.false_eq_true]
  split <;> simp

/-- Constructing with all four credentials truthy takes the OAuth
branch; the consumer holds the API key and the token object holds the
auth token. -/
theorem init_oauth_fields (k t s ts : String)
    (hk : k ≠ "") (hs : s ≠ "") (ht : t ≠ "") (hts : ts ≠ "") :
    (TrelloClient.init k t (some s) (some ts)).oauth
      = some { consumer_key := k, consumer_secret := s,
               token_key := t, token_secret := ts } := by
  unfold TrelloClient.init
  simp [pyTruthy, pyTruthyOpt, hk, hs, ht, hts]

/-- build_url in a state without the oauth_token attribute, written as
one flat concatenation. -/
theorem build_url_simple_form (c : TrelloClient) (h : c.oauth = none)
    (path : String) (query : List (String × Json)) :
    c.build_url path query
      = "https://api.trello.com/1" ++ (if path.take 1 ≠ "/" then "/" else "") ++ path
        ++ "?key=" ++ c.api_key ++ "&token=" ++ c.auth_token
        ++ (if query.length > 0 then "&" ++ urlencode query else "") := by
  unfold TrelloClient.build_url
  rw [h]
  rcases eq_or_ne (path.take 1) "/" with hp | hp <;>
    rcases Nat.eq_zero_or_pos query.length with hq | hq <;>
      simp [hp, hq, String.append_assoc]

/-- build_url in a state with the oauth_token attribute present, written
as one flat concatenation: key carries the token object key and token
carries the consumer key. -/
theorem build_url_oauth_form (c : TrelloClient) (o : OauthPair) (h : c.oauth = some o)
    (path : String) (query : List (String × Json)) :
    c.build_url path query
      = "https://api.trello.com/1" ++ (if path.take 1 ≠ "/" then "/" else "") ++ path
        ++ "?key=" ++ o.token_key ++ "&token=" ++ o.consumer_key
        ++ (if query.length > 0 then "&" ++ urlencode query else "") := by
  unfold TrelloClient.build_url
  rw [h]
  rcases eq_or_ne (path.take 1) "/" with hp | hp <;>
    rcases Nat.eq_zero_or_pos query.length with hq | hq <;>
      simp [hp, hq, String.append_assoc]

/-- Claim C2, amended: build_url is a pure string construction returning
base, normalized path, then key and token query parameters, then the
urlencoded extra parameters after an ampersand exactly when the query
dict is non-empty; in the simple-auth configuration key is the API key
and token the auth token as claimed, but in the OAuth configuration the
two values are swapped (key carries the auth token, token the API
key). -/
theorem c2_build_url_characterization (path : String) (query : List (String × Json))
    (k t s ts : String) :
    TrelloClient.build_url (TrelloClient.init k t none none) path query
      = "https://api.trello.com/1" ++ (if path.take 1 ≠ "/" then "/" else "") ++ path
        ++ "?key=" ++ k ++ "&token=" ++ t
        ++ (if query.length > 0 then "&" ++ urlencode query else "")
    ∧ (k ≠ "" → s ≠ "" → t ≠ "" → ts ≠ "" →
      TrelloClient.build_url (TrelloClient.init k t (some s) (some ts)) path query
      = "https://api.trello.com/1" ++ (if path.take 1 ≠ "/" then "/" else "") ++ path
        ++ "?key=" ++ t ++ "&token=" ++ k
        ++ (if query.length > 0 then "&" ++ urlencode query else "")) := by
  constructor
  · obtain ⟨h1, h2, h3⟩ := init_simple_fields k t
    rw [build_url_simple_form _ h1, h2, h3]
  · intro hk hs ht hts
    rw [build_url_oauth_form _ _ (init_oauth_fields k t s ts hk hs ht hts)]

/-- Claim C2 witness: the amended OAuth characterization at a concrete
client and path. -/
theorem c2_build_url_characterization_witness :
    TrelloClient.build_url (TrelloClient.init "K" "T" (some "S") (some "TS")) "b" []
      = "https://api.trello.com/1/b?key=T&token=K" := by
  have h := (c2_build_url_characterization "b" [] "K" "T" "S" "TS").2
    (by decide) (by decide) (by decide) (by decide)
  rw [h]
  rfl

/-- Claim C6, counterexample: constructing a client whose credentials
satisfy neither accepted combination raises nothing; the object is
produced with its credential attributes in place but with no client
attribute, and the brokenness only surfaces as an AttributeError on the
first request. -/
theorem c6_bad_credentials_counterexample :
    (TrelloClient.init "key" "" none none).client = none
    ∧ (TrelloClient.init "key" "" none none).api_key = "key"
    ∧ (TrelloClient.init "key" "" none none).auth_token = ""
    ∧ (TrelloClient.init "key" "" none none).fetch_json "/boards/b" "GET" [] []
        (.obj []) ⟨200, .null⟩
      = .error (.attributeError "TrelloClient instance has no attribute client") :=
  ⟨rfl, rfl, rfl, rfl⟩

/-- Claim C6, amended: for every credential combination satisfying
neither accepted configuration, construction completes silently, the
client attribute is left unset, and the configuration error surfaces
only as an AttributeError when the first request is attempted. -/
theorem c6_bad_credentials_silent (api_key token : String)
    (api_secret token_secret : Option String)
    (uri_path : String) (resp : HttpResponse)
    (h1 : (pyTruthy api_key && pyTruthyOpt api_secret && pyTruthy token
          && pyTruthyOpt token_secret) = false)
    (h2 : (pyTruthy api_key && pyTruthy token) = false) :
    (TrelloClient.init api_key token api_secret token_secret).client = none
    ∧ (TrelloClient.init api_key token api_secret token_secret).api_key = api_key
    ∧ (TrelloClient.init api_key token api_secret token_secret).auth_token = token
    ∧ (TrelloClient.init api_key token api_secret token_secret).fetch_json
        uri_path "GET" [] [] (.obj []) resp
      = .error (.attributeError "TrelloClient instance has no attribute client") := by
  unfold TrelloClient.fetch_json TrelloClient.init
  simp [h1, h2]

/-- Claim C6 witness: the amended statement at a concrete credential
combination that satisfies neither configuration. -/
theorem c6_bad_credentials_silent_witness :
    (TrelloClient.init "key" "" none none).client = none
    ∧ (TrelloClient.init "key" "" none none).api_key = "key"
    ∧ (TrelloClient.init "key" "" none none).auth_token = ""
    ∧ (TrelloClient.init "key" "" none none).fetch_json "/x" "GET" [] []
        (.obj []) ⟨200, .null⟩
      = .error (.attributeError "TrelloClient instance has no attribute client") :=
  c6_bad_credentials_silent "key" "" none none "/x" ⟨200, .null⟩ (by decide) (by decide)

/-- Claim C9, counterexample: the error actually raised for a 401
response is the TypeError from the failed Unauthorized constructor
call, and that error is not a ResourceUnavailable, so a handler for
ResourceUnavailable does not catch it. -/
theorem c9_401_error_counterexample :
    sampleClient.fetch_json "/cards/c9" "GET" [] [] (.obj []) ⟨401, .null⟩
      = .error (.typeError "__init__ takes exactly 3 arguments (2 given)")
    ∧ (PyErr.typeError "__init__ takes exactly 3 arguments (2 given)").isinstance_ResourceUnavailable
      = false :=
  ⟨rfl, rfl⟩

/-- Claim C9, amended: Unauthorized is declared a strict subclass of
ResourceUnavailable, so the two kinds are not disjoint and any
successfully constructed Unauthorized instance is a ResourceUnavailable;
but on a 401 response the Unauthorized constructor call itself fails
with TypeError, so the error actually raised is not a
ResourceUnavailable. -/
theorem c9_unauthorized_subclass (m : String) (st : Nat) (r : HttpResponse) :
    (PyErr.unauthorized m st).isinstance_ResourceUnavailable = true
    ∧ (raiseTrelloError true [.s m, .resp r]).isinstance_ResourceUnavailable = true
    ∧ (PyErr.resourceUnavailable m st).isinstance_Unauthorized = false
    ∧ sampleClient.fetch_json "/lists/l9" "GET" [] [] (.obj []) ⟨401, .null⟩
      = .error (.typeError "__init__ takes exactly 3 arguments (2 given)")
    ∧ (PyErr.typeError "__init__ takes exactly 3 arguments (2 given)").isinstance_ResourceUnavailable
      = false :=
  ⟨rfl, by simp [raiseTrelloError, PyErr.isinstance_ResourceUnavailable], rfl, rfl, rfl⟩

/-- Claim C10: for every call, the body handed to the HTTP client is
json.dumps(post_args); with the default empty post_args a GET request is
sent with the two-character empty-object body rather than no body; and
with the default empty header dict the Content-type header is present
exactly for POST, PUT and DELETE. -/
theorem c10_fetch_json_request_body (c : TrelloClient) (uri_path http_method : String)
    (headers : List (String × String)) (query_params : List (String × Json))
    (post_args : Json) :
    (c.fetch_json_request uri_path http_method headers query_params post_args).body
      = Json.dumps post_args
    ∧ (c.fetch_json_request uri_path "GET" headers query_params (.obj [])).body
      = "\x7b\x7d"
    ∧ ((c.fetch_json_request uri_path http_method [] query_params post_args).headers.lookup
        "Content-type"
      = if http_method = "POST" ∨ http_method = "PUT" ∨ http_method = "DELETE"
        then some "application/json" else none) := by
  refine ⟨rfl, ?_, ?_⟩
  · simp [TrelloClient.fetch_json_request, Json.dumps, Json.dumpsFields]
  · by_cases h : http_method = "POST" ∨ http_method = "PUT" ∨ http_method = "DELETE"
    · simp only [TrelloClient.fetch_json_request, if_pos h]
      rfl
    · simp only [TrelloClient.fetch_json_request, if_neg h]
      rfl


/-- Claim C3: the remote PUT of set_description and set_closed runs
before the local assignment, so a non-200 response leaves the local
field at its pre-call value and hands the error to the caller, while a
200 response updates the local field to the new value. -/
theorem c3_set_atomicity (card : Card) (d cl : Json) (resp : HttpResponse)
    (hclient : card.client.client.isSome = true) :
    (resp.status ≠ 200 →
      (card.set_description d resp).1 = card
      ∧ (card.set_description d resp).2.isSome = true
      ∧ (card.set_closed cl resp).1 = card
      ∧ (card.set_closed cl resp).2.isSome = true)
    ∧ (resp.status = 200 →
      card.set_description d resp = ({ card with description := some d }, none)
      ∧ card.set_closed cl resp = ({ card with closed := some cl }, none)) := by
  obtain ⟨ck, hck⟩ := Option.isSome_iff_exists.mp hclient
  constructor
  · intro hs
    unfold Card.set_description Card.set_closed Card.set_remote_attribute
      TrelloClient.fetch_json
    by_cases h401 : resp.status = 401 <;> simp [hck, hs, h401]
  · intro hs
    unfold Card.set_description Card.set_closed Card.set_remote_attribute
      TrelloClient.fetch_json
    simp [hck, hs]

/-- Claim C3 witness: at a concrete card, a 500 PUT response leaves the
description unchanged and signals the error, and a 200 PUT response
stores the new description. -/
theorem c3_set_atomicity_witness :
    ((sampleCard.set_description (.str "new") ⟨500, .null⟩).1 = sampleCard
      ∧ (sampleCard.set_description (.str "new") ⟨500, .null⟩).2.isSome = true)
    ∧ sampleCard.set_description (.str "new") ⟨200, .null⟩
      = ({ sampleCard with description := some (.str "new") }, none) := by
  have h := c3_set_atomicity sampleCard (.str "new") (.bool true) ⟨500, .null⟩ rfl
  have h200 := c3_set_atomicity sampleCard (.str "new") (.bool true) ⟨200, .null⟩ rfl
  have hfail := h.1 (by decide)
  exact ⟨⟨hfail.1, hfail.2.1⟩, (h200.2 rfl).1⟩

/-- Every successful fetch_json call returns exactly the decoded
response body. -/
theorem fetch_json_ok {c : TrelloClient} {p hm : String} {hd : List (String × String)}
    {q : List (String × Json)} {pa : Json} {resp : HttpResponse} {out : Json}
    (h : c.fetch_json p hm hd q pa resp = .ok out) : out = resp.content := by
  unfold TrelloClient.fetch_json at h
  split at h
  · simp at h
  · by_cases h401 : resp.status = 401
    · simp [h401] at h
    · by_cases h200 : resp.status = 200
      · simp [h401, h200] at h
        exact h.symm
      · simp [h401, h200] at h

/-- Claim C4, counterexample: a Member constructed with id m1 and
fetched against a 200 response carrying id m2 ends with id m2, which
differs from the constructed id: the id is overwritten from the
response and does change after construction. -/
theorem c4_member_fetch_id_counterexample :
    Except.map Member.id ((Member.init sampleClient "m1").fetch
      ⟨200, .obj [("status", .str "active"), ("id", .str "m2"), ("username", .str "u"),
                  ("fullName", .str "f"), ("initials", .str "i")]⟩)
      = .ok "m2"
    ∧ ("m2" : String) ≠ "m1" :=
  ⟨rfl, by decide⟩

/-- Claim C4, amended: Board.fetch, List.fetch, Card.fetch and the two
card setters never change the id an entity was constructed with, but
Member.fetch replaces the id with the id field of the response (default
empty string). -/
theorem c4_id_stability (b : Board) (l : TrelloList) (c : Card) (m : Member)
    (v w : Json) (resp : HttpResponse) (j : Json)
    (b' : Board) (l' : TrelloList) (c' : Card) (m' : Member) :
    (b.fetch resp = .ok b' → b'.id = b.id)
    ∧ (l.fetch resp = .ok l' → l'.id = l.id)
    ∧ (c.fetch resp = .ok c' → c'.id = c.id)
    ∧ (c.set_description v resp).1.id = c.id
    ∧ (c.set_closed w resp).1.id = c.id
    ∧ (m.fetch ⟨200, j⟩ = .ok m' → Json.str m'.id = j.get "id" (.str "")) := by
  refine ⟨?_, ?_, ?_, ?_, ?_, ?_⟩
  · intro h
    unfold Board.fetch at h
    repeat' split at h
    all_goals simp at h
    subst h
    rfl
  · intro h
    unfold TrelloList.fetch at h
    repeat' split at h
    all_goals simp at h
    subst h
    rfl
  · intro h
    unfold Card.fetch at h
    repeat' split at h
    all_goals simp at h
    subst h
    rfl
  · unfold Card.set_description Card.set_remote_attribute
    split <;> simp
  · unfold Card.set_closed Card.set_remote_attribute
    split <;> simp
  · intro h
    unfold Member.fetch at h
    repeat' split at h
    all_goals simp at h
    obtain rfl := fetch_json_ok (by assumption)
    subst h
    exact (asId_ok (by assumption)).symm

/-- A response body holding every field the three entity fetch methods
read. -/
def c4Json : Json :=
  .obj [("name", .str "N"), ("closed", .bool false), ("url", .str "U"),
        ("idMembers", .arr []), ("idShort", .num 7), ("idList", .str "l1"),
        ("idBoard", .str "b1"), ("labels", .arr []), ("badges", .obj [])]

/-- A member-fetch response body whose id differs from the constructed
one. -/
def c4MemberJson : Json :=
  .obj [("status", .str "active"), ("id", .str "m2"), ("username", .str "u"),
        ("fullName", .str "f"), ("initials", .str "i")]

/-- The board state after fetching c4Json. -/
def c4BoardFetched : Board :=
  { sampleBoard with
      name := "N", description := some (.str ""),
      closed := some (.bool false), url := some (.str "U") }

/-- The list state after fetching c4Json. -/
def c4ListFetched : TrelloList :=
  { sampleList with name := "N", closed := some (.bool false) }

/-- The card state after fetching c4Json. -/
def c4CardFetched : Card :=
  { sampleCard with
      name := .str "N", description := some (.str ""),
      closed := some (.bool false), url := some (.str "U"),
      member_ids := some (.arr []), short_id := some (.num 7),
      list_id := some (.str "l1"), board_id := some (.str "b1"),
      labels := some (.arr []), badges := some (.obj []) }

/-- The member state after fetching c4MemberJson. -/
def c4MemberFetched : Member :=
  { client := sampleClient, id := "m2", status := some "active",
    bio := some (.str ""), url := some (.str ""), username := some "u",
    full_name := some "f", initials := some "i" }

/-- Claim C4 witness: the amended id-stability statement applied at
concrete entities, a concrete successful fetch response, and a concrete
member response. -/
theorem c4_id_stability_witness :
    (c4BoardFetched).id = sampleBoard.id
    ∧ (c4ListFetched).id = sampleList.id
    ∧ (c4CardFetched).id = sampleCard.id
    ∧ (sampleCard.set_description (.str "x") ⟨200, c4Json⟩).1.id = sampleCard.id
    ∧ (sampleCard.set_closed (.bool true) ⟨200, c4Json⟩).1.id = sampleCard.id
    ∧ Json.str "m2" = c4MemberJson.get "id" (.str "") := by
  have h := c4_id_stability sampleBoard sampleList sampleCard
    (Member.init sampleClient "m1") (.str "x") (.bool true) ⟨200, c4Json⟩ c4MemberJson
    c4BoardFetched c4ListFetched c4CardFetched c4MemberFetched
  exact ⟨h.1 rfl, h.2.1 rfl, h.2.2.1 rfl, h.2.2.2.1, h.2.2.2.2.1, h.2.2.2.2.2 rfl⟩

/-- Claim C5: create_date triggers fetch_actions with the default
createCard filter, reads the first action object in the stored list,
drops the last five characters of its date string and parses the rest
with the fixed format; at the documented scenario response the result is
the timestamp 2021-01-02 03:04:05; an empty action list raises
IndexError (no default value); an error of the triggered fetch_actions
call propagates unchanged. -/
theorem c5_create_date (card : Card) (hclient : card.client.client.isSome = true) :
    card.create_date ⟨200, .arr [.obj [("date", .str "2021-01-02T03:04:05.123Z")]]⟩
      = .ok { year := 2021, month := 1, day := 2, hour := 3, minute := 4, second := 5 }
    ∧ card.create_date ⟨200, .arr []⟩ = .error .indexError
    ∧ (∀ (ds : String) (rest : List Json),
        card.create_date ⟨200, .arr (.obj [("date", .str ds)] :: rest)⟩
          = strptime_YmdHMS (ds.dropRight 5))
    ∧ (∀ (resp : HttpResponse) (e : PyErr),
        card.fetch_actions "createCard" resp = .error e →
          card.create_date resp = .error e) := by
  obtain ⟨ck, hck⟩ := Option.isSome_iff_exists.mp hclient
  refine ⟨?_, ?_, ?_, ?_⟩
  · unfold Card.create_date Card.fetch_actions TrelloClient.fetch_json
    simp [hck, Json.index, Json.item]
    rfl
  · unfold Card.create_date Card.fetch_actions TrelloClient.fetch_json
    simp [hck, Json.index]
  · intro ds rest
    unfold Card.create_date Card.fetch_actions TrelloClient.fetch_json
    simp [hck, Json.index, Json.item]
  · intro resp e h
    unfold Card.create_date
    rw [h]

/-- Claim C5 witness: the scenario response evaluated at a concrete
card. -/
theorem c5_create_date_witness :
    sampleCard.create_date ⟨200, .arr [.obj [("date", .str "2021-01-02T03:04:05.123Z")]]⟩
      = .ok { year := 2021, month := 1, day := 2, hour := 3, minute := 4, second := 5 } :=
  (c5_create_date sampleCard rfl).1

/-- Claim C7: for every successful POST response object, add_list
returns a List whose id, name and closed equal the response fields, and
add_card returns a Card whose id, name, description, closed, url and
member_ids equal the response fields (with the remaining card fields
unset, as in the constructor). -/
theorem c7_add_list_add_card (board : Board) (lst : TrelloList)
    (nameArg desc : Json) (j : Json) (i n : String) (cl dv u mids : Json)
    (hb : board.client.client.isSome = true)
    (hl : lst.client.client.isSome = true)
    (hid : j.item "id" = .ok (.str i))
    (hname : j.item "name" = .ok (.str n))
    (hcl : j.item "closed" = .ok cl)
    (hurl : j.item "url" = .ok u)
    (hmids : j.item "idMembers" = .ok mids)
    (hdesc : j.item "desc" = .ok dv) :
    board.add_list nameArg ⟨200, j⟩
      = .ok { board := board, client := board.client, id := i, name := n,
              closed := some cl, actions := none }
    ∧ lst.add_card nameArg desc ⟨200, j⟩
      = .ok { Card.init lst i (.str "") with
              name := .str n, description := some dv,
              closed := some cl, url := some u, member_ids := some mids } := by
  obtain ⟨kb, hkb⟩ := Option.isSome_iff_exists.mp hb
  obtain ⟨kl, hkl⟩ := Option.isSome_iff_exists.mp hl
  constructor
  · unfold Board.add_list TrelloClient.fetch_json
    simp [hkb, hid, hname, hcl, asId, encode_utf8]
  · unfold TrelloList.add_card TrelloClient.fetch_json
    simp [hkl, hid, hname, hcl, hurl, hmids, asId, Json.get_of_item hdesc]

/-- A POST response body holding the fields add_list and add_card
read. -/
def c7Json : Json :=
  .obj [("id", .str "X1"), ("name", .str "NN"), ("closed", .bool false),
        ("url", .str "UU"), ("idMembers", .arr []), ("desc", .str "DD")]

/-- Claim C7 witness: both constructions evaluated against a concrete
successful POST response. -/
theorem c7_add_list_add_card_witness :
    sampleBoard.add_list (.str "req") ⟨200, c7Json⟩
      = .ok { board := sampleBoard, client := sampleBoard.client, id := "X1",
              name := "NN", closed := some (.bool false), actions := none }
    ∧ sampleList.add_card (.str "req") .null ⟨200, c7Json⟩
      = .ok { Card.init sampleList "X1" (.str "") with
              name := .str "NN", description := some (.str "DD"),
              closed := some (.bool false), url := some (.str "UU"),
              member_ids := some (.arr []) } :=
  c7_add_list_add_card sampleBoard sampleList (.str "req") .null c7Json
    "X1" "NN" (.bool false) (.str "DD") (.str "UU") (.arr [])
    rfl rfl rfl rfl rfl rfl rfl rfl

/-- Claim C8: hydration is idempotent.  A Board hydrated by
_board_from_json and fetched again against the same response is
unchanged, and for Board, List and Card a second fetch against the same
response reproduces exactly the state left by the first fetch. -/
theorem c8_hydration_idempotent (c : TrelloClient) (b : Board) (l : TrelloList)
    (card : Card) (j : Json) (i nm ds : String)
    (cl u mids sid lid bid lbl bdg : Json)
    (hc : c.client.isSome = true)
    (hb : b.client.client.isSome = true)
    (hl : l.client.client.isSome = true)
    (hcc : card.client.client.isSome = true)
    (hid : j.item "id" = .ok (.str i))
    (hname : j.item "name" = .ok (.str nm))
    (hdesc : j.get "desc" (.str "") = .str ds)
    (hcl : j.item "closed" = .ok cl)
    (hurl : j.item "url" = .ok u)
    (hmids : j.item "idMembers" = .ok mids)
    (hsid : j.item "idShort" = .ok sid)
    (hlid : j.item "idList" = .ok lid)
    (hbid : j.item "idBoard" = .ok bid)
    (hlbl : j.item "labels" = .ok lbl)
    (hbdg : j.item "badges" = .ok bdg) :
    (c.board_from_json j
        = .ok {
            client := c, id := i, name := nm, description := some (.str ds),
            closed := some cl, url := some u }
      ∧ Board.fetch {
            client := c, id := i, name := nm, description := some (.str ds),
            closed := some cl, url := some u } ⟨200, j⟩
        = .ok {
            client := c, id := i, name := nm, description := some (.str ds),
            closed := some cl, url := some u })
    ∧ (b.fetch ⟨200, j⟩
        = .ok { b with
            name := nm, description := some (.str ds),
            closed := some cl, url := some u }
      ∧ Board.fetch { b with
            name := nm, description := some (.str ds),
            closed := some cl, url := some u } ⟨200, j⟩
        = .ok { b with
            name := nm, description := some (.str ds),
            closed := some cl, url := some u })
    ∧ (l.fetch ⟨200, j⟩ = .ok { l with name := nm, closed := some cl }
      ∧ TrelloList.fetch { l with name := nm, closed := some cl } ⟨200, j⟩
        = .ok { l with name := nm, closed := some cl })
    ∧ (card.fetch ⟨200, j⟩
        = .ok { card with
            name := .str nm, description := some (.str ds),
            closed := some cl, url := some u, member_ids := some mids,
            short_id := some sid, list_id := some lid, board_id := some bid,
            labels := some lbl, badges := some bdg }
      ∧ Card.fetch { card with
            name := .str nm, description := some (.str ds),
            closed := some cl, url := some u, member_ids := some mids,
            short_id := some sid, list_id := some lid, board_id := some bid,
            labels := some lbl, badges := some bdg } ⟨200, j⟩
        = .ok { card with
            name := .str nm, description := some (.str ds),
            closed := some cl, url := some u, member_ids := some mids,
            short_id := some sid, list_id := some lid, board_id := some bid,
            labels := some lbl, badges := some bdg }) := by
  obtain ⟨kc, hkc⟩ := Option.isSome_iff_exists.mp hc
  obtain ⟨kb, hkb⟩ := Option.isSome_iff_exists.mp hb
  obtain ⟨kl, hkl⟩ := Option.isSome_iff_exists.mp hl
  obtain ⟨kcc, hkcc⟩ := Option.isSome_iff_exists.mp hcc
  refine ⟨⟨?_, ?_⟩, ⟨?_, ?_⟩, ⟨?_, ?_⟩, ⟨?_, ?_⟩⟩ <;>
    simp [TrelloClient.board_from_json, Board.fetch, TrelloList.fetch, Card.fetch,
          TrelloClient.fetch_json, hkc, hkb, hkl, hkcc, hid, hname, hdesc, hcl,
          hurl, hmids, hsid, hlid, hbid, hlbl, hbdg, asId, encode_utf8]

/-- A response body carrying every field that construction and fetch of
Board, List and Card read. -/
def c8Json : Json :=
  .obj [("id", .str "e1"), ("name", .str "N"), ("desc", .str "D"),
        ("closed", .bool false), ("url", .str "U"), ("idMembers", .arr []),
        ("idShort", .num 7), ("idList", .str "l1"), ("idBoard", .str "b1"),
        ("labels", .arr []), ("badges", .obj [])]

/-- The board hydrated from c8Json. -/
def c8Board : Board :=
  { client := sampleClient, id := "e1", name := "N",
    description := some (.str "D"), closed := some (.bool false),
    url := some (.str "U") }

/-- The card hydrated from c8Json. -/
def c8Card : Card :=
  { sampleCard with
      name := .str "N", description := some (.str "D"),
      closed := some (.bool false), url := some (.str "U"),
      member_ids := some (.arr []), short_id := some (.num 7),
      list_id := some (.str "l1"), board_id := some (.str "b1"),
      labels := some (.arr []), badges := some (.obj []) }

/-- Claim C8 witness: board and card round trips against the concrete
response c8Json. -/
theorem c8_hydration_idempotent_witness :
    sampleClient.board_from_json c8Json = .ok c8Board
    ∧ c8Board.fetch ⟨200, c8Json⟩ = .ok c8Board
    ∧ sampleCard.fetch ⟨200, c8Json⟩ = .ok c8Card
    ∧ c8Card.fetch ⟨200, c8Json⟩ = .ok c8Card := by
  have h := c8_hydration_idempotent sampleClient sampleBoard sampleList sampleCard
    c8Json "e1" "N" "D" (.bool false) (.str "U") (.arr []) (.num 7) (.str "l1")
    (.str "b1") (.arr []) (.obj [])
    rfl rfl rfl rfl rfl rfl rfl rfl rfl rfl rfl rfl rfl rfl rfl
  exact ⟨h.1.1, h.1.2, h.2.2.2.1, h.2.2.2.2⟩
